import Mathlib

/-!
Verification development for the placement-validation pipeline of
`src/rpdiff/data_gen/rel_demo_aug/proc_gen_rel_demos.py` (function `main`).

Real-valued quantities are embedded exactly over `ℚ`.  A rigid pose is kept
in the rotation/translation split form of the homogeneous 4x4 matrices the
source manipulates with `np.matmul` / `np.linalg.inv`: composition is the
homogeneous matrix product, and inversion is stated for poses whose rotation
block is orthonormal (the invariant the source maintains, since every pose
matrix originates from a unit quaternion), where the matrix inverse is the
transpose-based form used below.
-/

namespace RpDiff

abbrev Vec3 := Fin 3 → ℚ

abbrev Mat3 := Matrix (Fin 3) (Fin 3) ℚ

/-- A rigid pose: rotation block and translation of the homogeneous matrix. -/
structure Pose where
  R : Mat3
  t : Vec3

/-- The identity pose, `util.unit_pose()` in the source. -/
def unitPose : Pose := ⟨1, 0⟩

/-- Pose composition: the product of the two homogeneous matrices
(`np.matmul` on 4x4 pose matrices in the source). -/
def compose (a b : Pose) : Pose := ⟨a.R * b.R, a.R.mulVec b.t + a.t⟩

/-- Pose inversion.  The source computes `np.linalg.inv` of the homogeneous
matrix; for a pose whose rotation block is orthonormal this equals the
transpose-based closed form `(Rᵀ, -Rᵀ t)` used here (see `compose_invert_self`
and `invert_compose_self`, which recover the `np.linalg.inv` specification). -/
def invert (a : Pose) : Pose := ⟨a.R.transpose, -(a.R.transpose.mulVec a.t)⟩

/-- Orthonormality of a rotation block: the invariant §3 of the spec states
for every pose ("matrix form's top-left 3x3 block is orthonormal"). -/
def IsRot (R : Mat3) : Prop := R.transpose * R = 1

/-- Modelled from the spec: `util.convert_reference_frame` is not under
`src/` (only its call sites in `main` are).  §3 of the spec defines it by the
formula "result = pose_frame_target ∘ (pose_frame_source⁻¹ ∘ pose_source)",
which is transcribed literally here. -/
def convert_reference_frame (pose_source pose_frame_source pose_frame_target : Pose) : Pose :=
  compose pose_frame_target (compose (invert pose_frame_source) pose_source)

/-- Modelled from the spec: the same missing `util.convert_reference_frame`,
but transcribed from the spec's behavioural descriptions instead of its §3
formula.  §4.4 step 2 says the call with `frame_source = identity,
frame_target = start_parent_pose` yields the child pose "in the parent's
*local* frame" (i.e. `invert start_parent_pose ∘ final_child_pose`), and step
3 says the call with `frame_source = upside_down_pose, frame_target =
identity` re-expresses that local relation "into the new upside-down world
frame" (i.e. `upside_down_pose ∘ child_in_parent`).  Both descriptions are
obtained from the §3 formula by exchanging the roles of the two frames:
result = pose_frame_source ∘ (pose_frame_target⁻¹ ∘ pose_source). -/
def conv_ref_frame_described (pose_source pose_frame_source pose_frame_target : Pose) : Pose :=
  compose pose_frame_source (compose (invert pose_frame_target) pose_source)

/-- §4.4 step 2 (source lines 788-792), with the §3 formula for
`convert_reference_frame`: `pose_source = final_child_pose`,
`pose_frame_source = unit_pose`, `pose_frame_target = start_parent_pose`. -/
def child_in_parent_specform (fc sp : Pose) : Pose :=
  convert_reference_frame fc unitPose sp

/-- §4.4 step 3 (source lines 794-798), with the §3 formula for
`convert_reference_frame`: `pose_source = child_in_parent`,
`pose_frame_source = upside_down_pose`, `pose_frame_target = unit_pose`. -/
def child_upside_down_specform (fc sp ud : Pose) : Pose :=
  convert_reference_frame (child_in_parent_specform fc sp) ud unitPose

/-- The rotation matrix `common.euler2rot([np.pi, 0, 0])` of source line 778:
a 180-degree rotation about the x axis (exactly representable over `ℚ`). -/
def rotX_pi : Mat3 :=
  Matrix.of fun i j => if i = j then (if i = 0 then 1 else -1) else 0

/-- The rotation matrix of `common.euler2quat([np.pi/2, 0, 0])`: a 90-degree
rotation about the x axis (exactly representable over `ℚ`); this is the
canonical upright orientation of the mug, bottle and bowl classes
(source lines 177-186). -/
def rotX_half : Mat3 :=
  Matrix.of fun i j =>
    if i = 0 ∧ j = 0 then 1 else if i = 1 ∧ j = 2 then -1 else if i = 2 ∧ j = 1 then 1 else 0

/-- The object classes of `upright_orientation_dict` (source lines 177-186). -/
inductive ObjClass where
  | rack | mug | bottle | bowl
  | syn_rack_easy | syn_rack_hard | cuboid | box_container
  deriving DecidableEq

/-- `upright_orientation_dict` (source lines 177-186), as rotation matrices:
`euler2quat([0,0,0])` is the identity and `euler2quat([np.pi/2,0,0])` is
`rotX_half`. -/
def upright_R : ObjClass → Mat3
  | .rack => 1
  | .mug => rotX_half
  | .bottle => rotX_half
  | .bowl => rotX_half
  | .syn_rack_easy => 1
  | .syn_rack_hard => 1
  | .cuboid => 1
  | .box_container => 1

/-- The fixed clearance offset `0.15` added to the parent's z coordinate at
source line 780. -/
def upside_down_clearance : ℚ := 3 / 20

/-- The world up direction scaled by the clearance offset. -/
def clearance_vec : Vec3 := fun i => if i = 2 then upside_down_clearance else 0

/-- Source lines 778-781: the upside-down parent pose.  Its rotation is
`euler2rot([pi,0,0]) @ upright_parent_ori_mat` and its translation is the
parent's start position with `0.15` added to the z entry. -/
def upside_down_pose (sp : Pose) (uprightR : Mat3) : Pose :=
  ⟨rotX_pi * uprightR, sp.t + clearance_vec⟩

/-- §4.4 step 2 (source lines 788-792), with the behaviour-described frame
conversion: the final child pose re-expressed in the parent's local frame at
its start pose. -/
def child_in_parent_described (fc sp : Pose) : Pose :=
  conv_ref_frame_described fc unitPose sp

/-- §4.4 step 3 (source lines 794-798), with the behaviour-described frame
conversion: the local child-in-parent relation re-expressed in the world
frame of the upside-down parent. -/
def child_upside_down_described (fc sp ud : Pose) : Pose :=
  conv_ref_frame_described (child_in_parent_described fc sp) ud unitPose

/-- The three valid strings for `--parent_load_pose_type` /
`--child_load_pose_type` (source line 230). -/
inductive LoadPoseType where
  | any_pose | demo_pose | random_upright
  deriving DecidableEq

/-- Source lines 701 and 704: the parent's pose with its start position and
the class upright orientation in place of its start orientation. -/
def upright_parent_pose (sp : Pose) (uprightR : Mat3) : Pose := ⟨uprightR, sp.t⟩

/-- Source line 702: `relative_upright_pose_mat = upright_parent_pose_mat @
inv(start_parent_pose_mat)`, the upright-correction transform `U`. -/
def upright_correction (sp : Pose) (uprightR : Mat3) : Pose :=
  compose (upright_parent_pose sp uprightR) (invert sp)

/-- The Placement Composer (source lines 690-713): the final world poses
`(parent, child)`.  Line 690 sets `final_child_pose = relative_trans @
start_child_pose`; if the parent's load pose type is `any_pose`, lines
696-707 reset the parent to its upright pose and pre-multiply the child's
final pose by the upright correction, otherwise the parent keeps its start
pose. -/
def compose_placement (lpt : LoadPoseType) (sp sc relative_trans : Pose)
    (uprightR : Mat3) : Pose × Pose :=
  let fc0 := compose relative_trans sc
  match lpt with
  | .any_pose =>
      (upright_parent_pose sp uprightR, compose (upright_correction sp uprightR) fc0)
  | _ => (sp, fc0)

/-- The mutable in-simulation poses of the two bodies: the state
`pb_client.reset_body` writes and `get_body_state` reads. -/
structure SimState where
  parent_pose : Pose
  child_pose : Pose

/-- The Stability Stress Test, source lines 767-803, as a state-passing
program over the mutable simulator state: reset both bodies to their start
poses (lines 774-775), build the upside-down parent pose (lines 778-781),
reset the parent there (line 784), derive the child's upside-down world pose
from the start-pose snapshot and the composed final child pose (lines
788-798), and reset the child there (line 803).  Returns the final state
with the derived `(upside_down_pose, child_upside_down)` pair. -/
def stress_test_step (_s : SimState) (lpt : LoadPoseType)
    (sp sc relative_trans : Pose) (uprightR : Mat3) : SimState × Pose × Pose :=
  let fc := (compose_placement lpt sp sc relative_trans uprightR).2
  let s1 : SimState := ⟨sp, sc⟩
  let ud := upside_down_pose sp uprightR
  let s2 : SimState := ⟨ud, s1.child_pose⟩
  let cud := child_upside_down_described fc sp ud
  let s3 : SimState := ⟨s2.parent_pose, cud⟩
  (s3, ud, cud)

/-- 3D points of a segmented depth observation. -/
abbrev PointCloud := List Vec3

/-- Squared Euclidean distance between two points. -/
def sqDist (a b : Vec3) : ℚ := (a 0 - b 0) ^ 2 + (a 1 - b 1) ^ 2 + (a 2 - b 2) ^ 2

/-- Source line 614: `np.mean(target_obj_pcd_obs, axis=0)`, the per-axis mean
of the concatenated cloud (over `ℚ`, the empty mean is `0/0 = 0` where numpy
yields NaN; the fused output on empty input is `[]` either way, since there
is nothing to filter). -/
def centroid (pts : PointCloud) : Vec3 :=
  fun i => (pts.map fun q => q i).sum / pts.length

/-- The square of the hardcoded outlier radius `0.2` of source line 615. -/
def outlier_radius_sq : ℚ := 1 / 25

/-- Point-cloud fusion, source lines 612-616: concatenate the per-camera
(already cropped) point lists, compute the centroid of the concatenation,
and keep exactly the points whose Euclidean distance to the centroid is
strictly below `0.2` (the source compares `np.linalg.norm(... ) < 0.2`;
over `ℚ` this is the equivalent squared comparison). -/
def fuse_object_pcd (cam_pts : List PointCloud) : PointCloud :=
  let all := cam_pts.flatten
  let m := centroid all
  all.filter fun q => decide (sqDist q m < outlier_radius_sq)

/-- One entry of the sequence returned by `p.getContactPoints`; the source
only ever uses the length of the sequence. -/
structure Contact where
  position : Vec3

/-- Source lines 810-812: `ud_touching_surf = len(ud_obj_surf_contacts) > 0`
and the criterion is its negation. -/
def fell_off_upside_down_crit (ud_contacts : List Contact) : Bool :=
  !(decide (ud_contacts.length > 0))

/-- The success-criteria mapping in its insertion order (source lines
732-812): `touching_surf` (line 737), then `bottle_upright` exactly when the
class pair is `('box_container', 'bottle')` (lines 739-749, with the
strict comparison `angle_from_upright < args.upright_ori_diff_thresh`), then
`fell_off_upside_down` (line 812).  The angle measurement
(`util.angle_from_3d_vectors` of the child body y axis against world up,
code not under `src/`) and the configured threshold (default
`np.deg2rad(15)`, source line 962) enter as inputs. -/
def success_crit_dict (parent_class child_class : String) (touching_surf : Bool)
    (angle_from_upright thresh : ℚ) (fell_off : Bool) : List (String × Bool) :=
  [("touching_surf", touching_surf)]
    ++ (if parent_class = "box_container" ∧ child_class = "bottle" then
          [("bottle_upright", decide (angle_from_upright < thresh))]
        else [])
    ++ [("fell_off_upside_down", fell_off)]

/-- Source line 816: `place_success = np.all(list(success_crit_dict.values()))`. -/
def place_success (crits : List (String × Bool)) : Bool :=
  (crits.map Prod.snd).all id

/-- Modelled from the spec: `util.transform_pcd` (not under `src/`) rigidly
transforms every point of a cloud by a pose ("the child's final cloud
rigidly transformed by the accepted relative transform"). -/
def transform_pcd (pts : PointCloud) (T : Pose) : PointCloud :=
  pts.map fun q => T.R.mulVec q + T.t

/-- The demonstration record persisted at source lines 866-895 (the fields
the placement-validation core fills; bookkeeping-only fields are omitted).
`final_parent_pcd` is the untouched copy of the parent's fused start cloud
(line 719) and `final_child_pcd` is the child's fused start cloud
transformed by `relative_trans` (line 720). -/
structure DemoRecord where
  success : Bool
  start_parent_pcd : PointCloud
  start_child_pcd : PointCloud
  final_parent_pcd : PointCloud
  final_child_pcd : PointCloud
  start_parent_pose : Pose
  start_child_pose : Pose
  final_parent_pose : Pose
  final_child_pose : Pose

/-- Source lines 816 and 866-895: compute the aggregate success flag and, if
and only if it is true, build the demonstration record. -/
def finalize_trial (crits : List (String × Bool))
    (parent_pcd child_pcd : PointCloud) (relative_trans : Pose)
    (sp sc fp fc : Pose) : Bool × Option DemoRecord :=
  let ps := place_success crits
  (ps,
    if ps then
      some ⟨ps, parent_pcd, child_pcd, parent_pcd, transform_pcd child_pcd relative_trans,
        sp, sc, fp, fc⟩
    else none)

/-- Source line 820: `place_success_list.append(place_success)`, executed
unconditionally on every iteration that reaches the evaluation. -/
def update_stats (stats : List Bool) (outcome : Bool) : List Bool :=
  stats ++ [outcome]

/-- The trial dataflow the claims touch, in source order: fuse the
per-camera observations of each object (lines 612-618), evaluate the
aggregate outcome and build the record (lines 816, 866-895), and append the
outcome to the running statistics (line 820).  The criterion measurements
and the poses come from the external simulator and enter as inputs. -/
def run_trial (stats : List Bool) (parent_cams child_cams : List PointCloud)
    (crits : List (String × Bool)) (relative_trans : Pose)
    (sp sc fp fc : Pose) : List Bool × Bool × Option DemoRecord :=
  let parent_pcd := fuse_object_pcd parent_cams
  let child_pcd := fuse_object_pcd child_cams
  let res := finalize_trial crits parent_pcd child_pcd relative_trans sp sc fp fc
  (update_stats stats res.1, res)

/-! Concrete inputs used by witnesses and counterexamples. -/

/-- A concrete start parent pose: identity orientation, position `(0, 1, 0)`. -/
def sp_cex : Pose := ⟨1, fun i => if i = 1 then 1 else 0⟩

/-- The upside-down pose derived (source lines 778-781) from `sp_cex` for a
parent class with identity upright orientation (e.g. `rack`). -/
def ud_cex : Pose := upside_down_pose sp_cex (upright_R .rack)

/-- The origin point. -/
def pt0 : Vec3 := fun _ => 0

/-- The point `(2/5, 0, 0)`. -/
def pt1 : Vec3 := fun i => if i = 0 then 2 / 5 else 0

/-- The point `(1/5, 0, 0)`: the centroid of the cloud `[pt0, pt1]`. -/
def pt1c2 : Vec3 := fun i => if i = 0 then 1 / 5 else 0

/-- A concrete contact-sequence entry. -/
def contact0 : Contact := ⟨pt0⟩

/-! Frame-algebra lemmas. -/

theorem Pose.ext_iff' (a b : Pose) : a = b ↔ a.R = b.R ∧ a.t = b.t := by
  constructor
  · intro h; subst h; exact ⟨rfl, rfl⟩
  · rintro ⟨h1, h2⟩; cases a; cases b; simp_all

theorem compose_assoc (a b c : Pose) :
    compose (compose a b) c = compose a (compose b c) := by
  simp [compose, Pose.ext_iff', Matrix.mul_assoc, Matrix.mulVec_add,
    Matrix.mulVec_mulVec, add_assoc]

theorem compose_unit_left (a : Pose) : compose unitPose a = a := by
  simp [compose, unitPose, Pose.ext_iff']

theorem compose_unit_right (a : Pose) : compose a unitPose = a := by
  simp [compose, unitPose, Pose.ext_iff']

theorem invert_unitPose : invert unitPose = unitPose := by
  simp [invert, unitPose]

/-- For an orthonormal rotation block, `invert` is a left inverse for
`compose`: this is the sense in which the transpose-based `invert` agrees
with the `np.linalg.inv` the source applies to pose matrices. -/
theorem invert_compose_self (a : Pose) (h : IsRot a.R) :
    compose (invert a) a = unitPose := by
  simp [compose, invert, unitPose, Pose.ext_iff', IsRot] at h ⊢
  exact h

/-- For an orthonormal rotation block, `invert` is also a right inverse. -/
theorem compose_invert_self (a : Pose) (h : IsRot a.R) :
    compose a (invert a) = unitPose := by
  have h' : a.R * a.R.transpose = 1 := (Matrix.mul_eq_one_comm).2 h
  simp [compose, invert, unitPose, Pose.ext_iff', Matrix.mulVec_neg,
    Matrix.mulVec_mulVec, h']

theorem invert_compose_cancel (a b : Pose) (h : IsRot a.R) :
    compose (invert a) (compose a b) = b := by
  rw [← compose_assoc, invert_compose_self a h, compose_unit_left]

theorem isRot_one : IsRot 1 := by
  simp [IsRot]

theorem isRot_rotX_half : IsRot rotX_half := by
  show Matrix.transpose _ * _ = 1
  ext i j
  fin_cases i <;> fin_cases j <;>
    simp +decide [rotX_half, Matrix.mul_apply, Fin.sum_univ_three,
      Matrix.one_apply, Matrix.transpose_apply]

theorem isRot_rotX_pi : IsRot rotX_pi := by
  show Matrix.transpose _ * _ = 1
  ext i j
  fin_cases i <;> fin_cases j <;>
    simp +decide [rotX_pi, Matrix.mul_apply, Fin.sum_univ_three,
      Matrix.one_apply, Matrix.transpose_apply]

theorem isRot_upright (c : ObjClass) : IsRot (upright_R c) := by
  cases c <;> first
    | exact isRot_one
    | exact isRot_rotX_half

/-- Each canonical upright orientation is itself a rotation about the x
axis, so it commutes with the 180-degree x rotation: for every class in
`upright_orientation_dict`, rotating the upright orientation about the world
x axis (what line 778 computes) coincides with rotating it about the body x
axis. -/
theorem rotX_pi_comm_upright (c : ObjClass) :
    rotX_pi * upright_R c = upright_R c * rotX_pi := by
  cases c <;>
  · ext i j
    fin_cases i <;> fin_cases j <;>
      simp +decide [upright_R, rotX_pi, rotX_half, Matrix.mul_apply, Fin.sum_univ_three,
        Matrix.one_apply]

theorem isRot_sp_cex : IsRot sp_cex.R := isRot_one

theorem isRot_ud_cex : IsRot ud_cex.R := by
  show Matrix.transpose _ * _ = 1
  ext i j
  fin_cases i <;> fin_cases j <;>
    simp +decide [ud_cex, sp_cex, upside_down_pose, upright_R, rotX_pi,
      Matrix.mul_apply, Fin.sum_univ_three, Matrix.one_apply, Matrix.transpose_apply]

/-! Claim theorems. -/

/-- C1, counterexample: with `convert_reference_frame` taken literally from
the §3 formula, the stress-test derivation of §4.4 steps 2-3 violates the
claimed identity `invert(UD) ∘ child_upside_down = invert(Sp) ∘ Fc` at the
valid start parent pose `sp_cex` (identity orientation, position (0,1,0)),
final child pose `unitPose`, and the upside-down pose step 1 derives from
`sp_cex`. -/
theorem C1_counterexample :
    IsRot sp_cex.R ∧ IsRot ud_cex.R ∧
      ud_cex = upside_down_pose sp_cex (upright_R .rack) ∧
      compose (invert ud_cex) (child_upside_down_specform unitPose sp_cex ud_cex)
        ≠ compose (invert sp_cex) unitPose := by
  refine ⟨isRot_sp_cex, isRot_ud_cex, rfl, fun h => ?_⟩
  have h1 : (compose (invert ud_cex) (child_upside_down_specform unitPose sp_cex ud_cex)).t 1
      = 1 := by
    simp +decide [sp_cex, ud_cex, compose, invert, unitPose, upside_down_pose, upright_R,
      rotX_pi, clearance_vec, child_upside_down_specform, child_in_parent_specform,
      convert_reference_frame, Matrix.mulVec, Matrix.dotProduct, Fin.sum_univ_three,
      Matrix.mul_apply, Matrix.one_apply, Matrix.transpose_apply, upside_down_clearance,
      Pi.add_apply]
  have h2 : (compose (invert sp_cex) unitPose).t 1 = -1 := by
    simp +decide [sp_cex, compose, invert, unitPose, Matrix.mulVec, Matrix.dotProduct,
      Fin.sum_univ_three, Matrix.mul_apply, Matrix.one_apply, Matrix.transpose_apply,
      Pi.add_apply]
  rw [h, h2] at h1
  norm_num at h1

/-- C1 (amended): with the two frame roles of the §3 formula exchanged —
the reading under which §4.4 step 2 actually lands in the parent's local
frame and step 3 actually lands in the upside-down world frame — the
derivation satisfies the claimed identity: the derived child pose relative
to the upside-down parent pose equals the final child pose relative to the
parent's start pose, for every start parent pose, final child pose, and
upside-down pose with orthonormal rotation. -/
theorem C1_upside_down_relative_pose (sp fc ud : Pose) (hud : IsRot ud.R) :
    compose (invert ud) (child_upside_down_described fc sp ud)
      = compose (invert sp) fc := by
  simp only [child_upside_down_described, child_in_parent_described,
    conv_ref_frame_described, invert_unitPose, compose_unit_left]
  exact invert_compose_cancel _ _ hud

/-- C1 witness: the amended identity evaluated on the concrete poses of the
counterexample. -/
theorem C1_upside_down_relative_pose_witness :
    IsRot ud_cex.R ∧
      compose (invert ud_cex) (child_upside_down_described unitPose sp_cex ud_cex)
        = compose (invert sp_cex) unitPose :=
  ⟨isRot_ud_cex, C1_upside_down_relative_pose sp_cex unitPose ud_cex isRot_ud_cex⟩

/-- C2: when the parent's load pose type is `any_pose`, the composer sets
the parent's final pose to the upright parent pose `Up` (start position,
upright orientation) and the child's final pose to `U ∘ (R ∘ Sc)` with
`U = Up ∘ invert(Sp)`, and the child's final pose relative to the parent's
final pose equals `invert(Sp) ∘ (R ∘ Sc)`, the uncorrected child pose
relative to the parent's start pose — the upright correction cancels. -/
theorem C2_upright_correction_preserves_relative (sp sc relative_trans : Pose)
    (uprightR : Mat3) (h : IsRot uprightR) :
    (compose_placement .any_pose sp sc relative_trans uprightR).1
        = upright_parent_pose sp uprightR ∧
      (compose_placement .any_pose sp sc relative_trans uprightR).2
        = compose (upright_correction sp uprightR) (compose relative_trans sc) ∧
      compose (invert (upright_parent_pose sp uprightR))
          (compose_placement .any_pose sp sc relative_trans uprightR).2
        = compose (invert sp) (compose relative_trans sc) := by
  refine ⟨rfl, rfl, ?_⟩
  show compose (invert (upright_parent_pose sp uprightR))
      (compose (upright_correction sp uprightR) (compose relative_trans sc)) = _
  rw [upright_correction, compose_assoc]
  exact invert_compose_cancel _ _ h

/-- C2 witness: the upright correction for `sp_cex` with the mug/bottle/bowl
upright orientation, identity start child pose and identity relative
transform. -/
theorem C2_upright_correction_preserves_relative_witness :
    IsRot rotX_half ∧
      compose (invert (upright_parent_pose sp_cex rotX_half))
          (compose_placement .any_pose sp_cex unitPose unitPose rotX_half).2
        = compose (invert sp_cex) (compose unitPose unitPose) :=
  ⟨isRot_rotX_half,
    (C2_upright_correction_preserves_relative sp_cex unitPose unitPose rotX_half
      isRot_rotX_half).2.2⟩

/-- C6: for every object class and start parent pose, the upside-down pose
of source lines 778-781 has orientation equal to the canonical upright
orientation rotated 180 degrees about its (body) x axis — for every class
in the table the body-axis and world-axis rotations coincide — and position
equal to the start position translated up in world z by the clearance
offset, which is `0.15` in z and `0` in x and y. -/
theorem C6_upside_down_pose_shape (c : ObjClass) (sp : Pose) :
    (upside_down_pose sp (upright_R c)).R = upright_R c * rotX_pi ∧
      (upside_down_pose sp (upright_R c)).t = sp.t + clearance_vec ∧
      clearance_vec 2 = 3 / 20 ∧ clearance_vec 0 = 0 ∧ clearance_vec 1 = 0 := by
  refine ⟨rotX_pi_comm_upright c, rfl, ?_, ?_, ?_⟩ <;>
    simp +decide [clearance_vec, upside_down_clearance]

/-- C9: the stress-test derivation is a deterministic function of the
start-pose snapshot, the relative transform, the load pose type and the
class upright orientation alone: started from any two mutable simulator
states, it derives the same `(upside_down_pose, child_upside_down)` pair,
namely the pair computed purely from the snapshot and relative transform. -/
theorem C9_stress_test_deterministic (s s' : SimState) (lpt : LoadPoseType)
    (sp sc relative_trans : Pose) (uprightR : Mat3) :
    (stress_test_step s lpt sp sc relative_trans uprightR).2
        = (stress_test_step s' lpt sp sc relative_trans uprightR).2 ∧
      (stress_test_step s lpt sp sc relative_trans uprightR).2
        = (upside_down_pose sp uprightR,
            child_upside_down_described
              (compose_placement lpt sp sc relative_trans uprightR).2 sp
              (upside_down_pose sp uprightR)) :=
  ⟨rfl, rfl⟩

/-- C3: for every trial that completes the pipeline, the aggregate success
flag is the logical AND (`foldr` of `&&`) of all boolean criteria present in
the success-criteria mapping, and the demonstration record is built if and
only if that aggregate is true. -/
theorem C3_aggregate_and_persistence (crits : List (String × Bool))
    (parent_pcd child_pcd : PointCloud) (relative_trans sp sc fp fc : Pose) :
    (finalize_trial crits parent_pcd child_pcd relative_trans sp sc fp fc).1
        = crits.foldr (fun kv b => kv.2 && b) true ∧
      ((finalize_trial crits parent_pcd child_pcd relative_trans sp sc fp fc).2.isSome
        ↔ (finalize_trial crits parent_pcd child_pcd relative_trans sp sc fp fc).1 = true) := by
  constructor
  · show place_success crits = _
    induction crits with
    | nil => rfl
    | cons kv rest ih =>
        simp only [place_success, List.map_cons, List.all_cons, List.foldr_cons, id] at ih ⊢
        rw [ih]
  · by_cases hps : place_success crits = true <;>
      simp [finalize_trial, hps]

/-- C4, counterexample: the source's outlier filter (line 615) compares the
distance to the centroid with `<`, not `≤`: for the two-point cloud
`{(0,0,0), (2/5,0,0)}` each point lies at distance exactly `0.2` from the
centroid `(1/5,0,0)` — "not exceeding" the radius — yet fusion drops both
and returns the empty cloud. -/
theorem C4_counterexample :
    fuse_object_pcd [[pt0, pt1]] = [] ∧
      pt0 ∈ ([[pt0, pt1]] : List PointCloud).flatten ∧
      sqDist pt0 (centroid ([[pt0, pt1]] : List PointCloud).flatten) = outlier_radius_sq := by
  have hc : centroid [pt0, pt1] = pt1c2 := by
    funext i
    fin_cases i <;>
      · simp +decide [centroid, pt0, pt1, pt1c2]
        try norm_num
  have h0 : sqDist pt0 pt1c2 = 1 / 25 := by
    simp +decide [sqDist, pt0, pt1c2]
  have h1 : sqDist pt1 pt1c2 = 1 / 25 := by
    simp +decide [sqDist, pt1, pt1c2]
    norm_num
  refine ⟨?_, by simp, ?_⟩
  · rw [fuse_object_pcd]
    simp only [List.flatten_cons, List.flatten_nil, List.append_nil, hc]
    rw [List.filter_cons, List.filter_cons, List.filter_nil]
    norm_num [h0, h1, outlier_radius_sq]
  · simp only [List.flatten_cons, List.flatten_nil, List.append_nil, hc, h0,
      outlier_radius_sq]

/-- C4 (amended): fusion concatenates the per-camera points, computes their
centroid, and returns exactly the subset of points whose Euclidean distance
to that centroid is strictly less than the outlier radius `0.2` (squared
comparison over `ℚ`); in particular, a non-empty cloud in which every point
is within distance `0.05` of the centroid or at distance exactly `5.0` from
it fuses to exactly the inlier subset. -/
theorem C4_fusion_filter (cams : List PointCloud) :
    (∀ q : Vec3, q ∈ fuse_object_pcd cams ↔
        q ∈ cams.flatten ∧ sqDist q (centroid cams.flatten) < outlier_radius_sq) ∧
      (cams.flatten ≠ [] →
        (∀ q ∈ cams.flatten,
            sqDist q (centroid cams.flatten) ≤ 1 / 400 ∨
              sqDist q (centroid cams.flatten) = 25) →
        fuse_object_pcd cams
          = cams.flatten.filter fun q =>
              decide (sqDist q (centroid cams.flatten) ≤ 1 / 400)) := by
  constructor
  · intro q
    rw [fuse_object_pcd]
    simp only [List.mem_filter, decide_eq_true_eq]
  · intro _hne hdi
    apply List.filter_congr
    intro q hq
    simp only [decide_eq_decide]
    rcases hdi q hq with h | h
    · exact ⟨fun _ => h, fun _ => lt_of_le_of_lt h (by norm_num [outlier_radius_sq])⟩
    · rw [h]
      constructor <;> intro hcon <;> [skip; skip] <;> norm_num [outlier_radius_sq] at hcon

/-- C4 witness: a two-camera cloud with every point on the centroid fuses to
the full inlier set under both descriptions. -/
theorem C4_fusion_filter_witness :
    ([[pt0], [pt0]] : List PointCloud).flatten ≠ [] ∧
      (∀ q ∈ ([[pt0], [pt0]] : List PointCloud).flatten,
          sqDist q (centroid ([[pt0], [pt0]] : List PointCloud).flatten) ≤ 1 / 400 ∨
            sqDist q (centroid ([[pt0], [pt0]] : List PointCloud).flatten) = 25) ∧
      fuse_object_pcd [[pt0], [pt0]]
        = ([[pt0], [pt0]] : List PointCloud).flatten.filter fun q =>
            decide (sqDist q (centroid ([[pt0], [pt0]] : List PointCloud).flatten) ≤ 1 / 400) :=
  ⟨by simp, by norm_num [centroid, sqDist, pt0],
    (C4_fusion_filter [[pt0], [pt0]]).2 (by simp)
      (by norm_num [centroid, sqDist, pt0])⟩

/-- C5, counterexample: with the parent visible in zero of two cameras,
fusion does not fail — it returns the empty cloud — and the trial still
runs to completion: the running-statistics list grows by one entry, so the
count does not stay unchanged. -/
theorem C5_counterexample :
    fuse_object_pcd [[], []] = [] ∧
      (run_trial [] [[], []] [[pt0]] [("touching_surf", false)] unitPose unitPose unitPose
          unitPose unitPose).1.length = 1 := by
  constructor <;> simp [fuse_object_pcd, run_trial, update_stats, centroid]

/-- C5 (amended): when one object is visible in zero cameras, fusion
returns the empty point cloud (it raises no error — there is no
`EmptyObservationError` in the source), the trial proceeds, and its outcome
is appended to the running statistics, whose count grows by one. -/
theorem C5_empty_observation (stats : List Bool) (parent_cams child_cams : List PointCloud)
    (crits : List (String × Bool)) (relative_trans sp sc fp fc : Pose)
    (h : ∀ c ∈ parent_cams, c = []) :
    fuse_object_pcd parent_cams = [] ∧
      (run_trial stats parent_cams child_cams crits relative_trans sp sc fp fc).1.length
        = stats.length + 1 := by
  constructor
  · have hflat : parent_cams.flatten = [] := by
      induction parent_cams with
      | nil => rfl
      | cons c rest ih =>
          rw [List.flatten_cons, h c (by simp), List.nil_append]
          exact ih fun x hx => h x (by simp [hx])
    simp [fuse_object_pcd, hflat]
  · simp [run_trial, update_stats]

/-- C5 witness: the empty two-camera observation. -/
theorem C5_empty_observation_witness :
    fuse_object_pcd [[], []] = [] ∧
      (run_trial [true] [[], []] [[pt0]] [] unitPose unitPose unitPose unitPose
          unitPose).1.length = 1 + 1 :=
  C5_empty_observation [true] [[], []] [[pt0]] [] unitPose unitPose unitPose unitPose
    unitPose (by simp)

/-- C7: the `fell_off_upside_down` criterion recorded in the mapping is true
exactly when the post-settling contact query returned no contacts, and
whenever any contact was detected the criterion is false and the trial's
aggregate success is false. -/
theorem C7_fell_off_criterion (contacts : List Contact) (parent_class child_class : String)
    (touching : Bool) (angle thresh : ℚ) :
    List.lookup "fell_off_upside_down"
        (success_crit_dict parent_class child_class touching angle thresh
          (fell_off_upside_down_crit contacts)) = some contacts.isEmpty ∧
      (contacts ≠ [] →
        place_success (success_crit_dict parent_class child_class touching angle thresh
          (fell_off_upside_down_crit contacts)) = false) := by
  have hfo : fell_off_upside_down_crit contacts = contacts.isEmpty := by
    cases contacts <;> simp [fell_off_upside_down_crit]
  constructor
  · by_cases hc : parent_class = "box_container" ∧ child_class = "bottle" <;>
      simp [success_crit_dict, hc, List.lookup, hfo]
  · intro hne
    have he : contacts.isEmpty = false := by
      cases contacts with
      | nil => exact absurd rfl hne
      | cons c rest => rfl
    by_cases hc : parent_class = "box_container" ∧ child_class = "bottle" <;>
      simp [success_crit_dict, hc, place_success, hfo, he]

/-- C7 witness: a single detected contact after the upside-down settle makes
the aggregate success false. -/
theorem C7_fell_off_criterion_witness :
    ([contact0] : List Contact) ≠ [] ∧
      place_success (success_crit_dict "box_container" "bottle" true 0 1
        (fell_off_upside_down_crit [contact0])) = false :=
  ⟨by simp, (C7_fell_off_criterion [contact0] "box_container" "bottle" true 0 1).2 (by simp)⟩

/-- C8: every demonstration record the trial builds stores as the child's
final cloud the child's fused start cloud with every point rigidly
transformed by the accepted relative transform, and as the parent's final
cloud the parent's fused start cloud unchanged. -/
theorem C8_record_pcds (crits : List (String × Bool)) (parent_pcd child_pcd : PointCloud)
    (relative_trans sp sc fp fc : Pose) (d : DemoRecord)
    (h : (finalize_trial crits parent_pcd child_pcd relative_trans sp sc fp fc).2 = some d) :
    d.final_child_pcd
        = child_pcd.map (fun q => relative_trans.R.mulVec q + relative_trans.t) ∧
      d.final_parent_pcd = parent_pcd := by
  by_cases hps : place_success crits = true <;> simp [finalize_trial, hps] at h
  rw [← h]
  exact ⟨rfl, rfl⟩

/-- C8 witness: the record of a trial whose criteria mapping is empty (so
the aggregate is vacuously true). -/
theorem C8_record_pcds_witness :
    (finalize_trial [] [pt0] [pt1] unitPose unitPose unitPose unitPose unitPose).2
        = some ⟨true, [pt0], [pt1], [pt0], transform_pcd [pt1] unitPose,
            unitPose, unitPose, unitPose, unitPose⟩ ∧
      (⟨true, [pt0], [pt1], [pt0], transform_pcd [pt1] unitPose,
          unitPose, unitPose, unitPose, unitPose⟩ : DemoRecord).final_child_pcd
        = [pt1].map (fun q => unitPose.R.mulVec q + unitPose.t) :=
  ⟨rfl,
    (C8_record_pcds [] [pt0] [pt1] unitPose unitPose unitPose unitPose unitPose _ rfl).1⟩

/-- C10: the success-criteria mapping contains exactly the keys
`touching_surf` and `fell_off_upside_down`, plus `bottle_upright` exactly
when the class pair is `('box_container', 'bottle')`, and `bottle_upright`
is recorded as true exactly when the measured angle from upright is strictly
below the configured threshold. -/
theorem C10_criteria_keys (parent_class child_class : String) (touching : Bool)
    (angle thresh : ℚ) (fell : Bool) :
    ((success_crit_dict parent_class child_class touching angle thresh fell).map Prod.fst
        = if parent_class = "box_container" ∧ child_class = "bottle" then
            ["touching_surf", "bottle_upright", "fell_off_upside_down"]
          else ["touching_surf", "fell_off_upside_down"]) ∧
      (List.lookup "bottle_upright"
          (success_crit_dict parent_class child_class touching angle thresh fell)
        = if parent_class = "box_container" ∧ child_class = "bottle" then
            some (decide (angle < thresh))
          else none) := by
  by_cases hc : parent_class = "box_container" ∧ child_class = "bottle" <;>
    simp [success_crit_dict, hc, List.lookup]

end RpDiff
